import Mathlib

/-!
Shallow embedding of the user resource layer (`girder/api/v1/user.py`) and the
`mongo_search` plugin (`plugins/mongo_search/server/__init__.py`) of the
mindlogger-app-backend repository, together with theorems settling the frozen
claims about them.

Conventions of the embedding:
* MongoDB ObjectIds are modelled as natural numbers (`ObjId`); token ids, which
  the handlers receive and compare as strings, are modelled as `String`.
* Timestamps are integers (seconds); `datetime.timedelta.total_seconds` of
  `expires - utcnow` becomes integer subtraction.
* Python exceptions become an `ApiError` sum type; a handler that can raise
  returns `Except ApiError _`.  Side effects (model `save`, token creation and
  removal, outgoing mail) are returned explicitly in effect records.
* External models (`Token`, `Group`, the OTP and crypt helpers of the user
  model, `json.loads`, `formatLdObject`) are not part of the repository
  sources; they are modelled from the spec where a claim depends on them, with
  a doc comment saying so, or passed in as oracle functions.
-/

abbrev ObjId := Nat

deriving instance DecidableEq for Except

/-- Python `str.lower()` (ASCII suffices for the strings involved), defined by
structural recursion over the characters so that concrete instances evaluate
inside the kernel. -/
def lowerString (s : String) : String :=
  String.mk (s.data.map Char.toLower)

/-- Python exceptions raised by the handlers: girder framework exception types
plus the builtin exceptions the untyped code can raise. -/
inductive ApiError where
  | rest (msg : String)
  | access (msg : String)
  | validation (msg : String)
  | attributeError
  | keyError
  | typeError
  deriving DecidableEq, Repr

/-- `girder.constants.TokenScope.TEMPORARY_USER_AUTH` (constant not under
`src/`; any fixed string distinct from the other scopes works). -/
def TEMPORARY_USER_AUTH : String := "core.user_auth.temporary"

/-- `girder.constants.TokenScope.EMAIL_VERIFICATION`. -/
def EMAIL_VERIFICATION : String := "core.email_verification"

/-- `girder.constants.AccessType.READ = 1`. -/
def AccessTypeREAD : Nat := 1

/-! ## mongo_search plugin (`plugins/mongo_search/server/__init__.py`) -/

/-- The `allowed` dict literal of `ResourceExt.mongoSearch` (lines 33-38).
In the source the entry for `'collection'` is not followed by a comma, which
is a Python `SyntaxError`: the module cannot be imported as written.  The
embedding uses the evident four-entry literal (every other entry is
comma-terminated); the syntax slip itself is recorded against claim C3. -/
def allowedBase : List (String × List String) :=
  [("collection", ["_id", "name", "description"]),
   ("folder", ["_id", "name", "description"]),
   ("item", ["_id", "name", "description"]),
   ("user", ["_id", "firstName", "lastName", "login"])]

/-- Association-list lookup, the embedding of Python dict indexing. -/
def alookup (l : List (String × List String)) (k : String) : Option (List String) :=
  (l.find? (fun p => p.1 = k)).map (fun p => p.2)

/-- A call `model.find(query, fields=..., limit=..., offset=...)` issued by
`mongoSearch`, recorded as an effect. -/
structure FindCall where
  coll : String
  fields : List String
  limit : Nat
  offset : Nat
  deriving DecidableEq, Repr

/-- Environment of `mongoSearch`: the pieces owned by the framework.
`trigger` is the composite effect of the handlers bound to the
`mongo_search.allowed_collections` event (they mutate the `allowed` dict in
place); `parseJson` is `json.loads` on the `q` parameter; `hasFilter` tells
whether the model for a collection has a `filterSearchResults` attribute;
`modelExists` whether `ModelImporter().model` resolves the name. -/
structure SearchEnv where
  trigger : List (String × List String) → List (String × List String)
  parseJson : String → Option String
  hasFilter : String → Bool
  modelExists : String → Bool

/-- Request parameters of `mongoSearch`; `type` and `q` are declared required
(`requireParams`), the paging parameters default via `getPagingParameters`. -/
structure SearchParams where
  type : Option String
  q : Option String
  limit : Nat
  offset : Nat

/-- `ResourceExt.mongoSearch` (lines 31-62), with the result documents
abstracted away: the embedding returns the raised error or `.ok`, paired with
the list of `find` calls issued against models. -/
def mongoSearch (env : SearchEnv) (params : SearchParams) :
    Except ApiError Unit × List FindCall :=
  match params.type, params.q with
  | none, _ => (Except.error (ApiError.rest "Parameter \"type\" is required."), [])
  | _, none => (Except.error (ApiError.rest "Parameter \"q\" is required."), [])
  | some coll, some q =>
    let allowed := env.trigger allowedBase
    if (alookup allowed coll).isNone then
      (Except.error (ApiError.rest ("Invalid resource type: " ++ coll)), [])
    else
      match env.parseJson q with
      | none => (Except.error (ApiError.rest "Invalid JSON passed in request body."), [])
      | some _ =>
        if ¬ env.modelExists coll then
          (Except.error (ApiError.validation ("Model " ++ coll ++ " not found.")), [])
        else
          let fields := (alookup allowed coll).getD []
          if env.hasFilter coll then
            (Except.ok (), [{ coll := coll, fields := fields, limit := 0, offset := 0 }])
          else
            (Except.ok (), [{ coll := coll, fields := fields,
                              limit := params.limit, offset := params.offset }])

/-! ## Data model (documents as consumed by `girder/api/v1/user.py`) -/

/-- The user's `otp` sub-document.  `enabled` is the flag the OTP lifecycle
toggles; `secret` stands for the rest of the TOTP configuration. -/
structure OtpConfig where
  enabled : Bool
  secret : String
  deriving DecidableEq, Repr

/-- A user document, with the fields the handlers under scrutiny read or
write; optional fields model dict keys that may be absent. -/
structure UserDoc where
  oid : ObjId
  login : String
  email : String
  firstName : String
  lastName : String
  salt : Option String
  admin : Bool
  status : Option String
  otp : Option OtpConfig
  groups : List ObjId
  emailVerified : Bool
  created : Int
  deriving DecidableEq, Repr

/-- A token document (the handlers look tokens up by their string id). -/
structure TokenDoc where
  tid : String
  userId : Option ObjId
  expires : Int
  scope : List String
  deriving DecidableEq, Repr

/-- Modelled from the spec: the external user model's `hasOtpEnabled` — the
spec says OTP is "a second authentication factor managed by the external user
model" with an optional OTP configuration on the user; a user has OTP enabled
when the configuration is present and switched on. -/
def hasOtpEnabled (u : UserDoc) : Bool :=
  match u.otp with
  | some o => o.enabled
  | none => false

/-- Modelled from the spec: the external user model's `hasPassword` — whether
the user has stored password material (the spec's "password/salt" fields). -/
def hasPassword (u : UserDoc) : Bool :=
  u.salt.isSome

/-- Modelled from the spec: `Token().load(key, objectId=False, ...)` — the
external token model looks the token up by its string id. -/
def tokenLoad (tokens : List TokenDoc) (key : String) : Option TokenDoc :=
  tokens.find? (fun t => t.tid = key)

/-- Modelled from the spec: `Token().hasScope(token, scope)` — whether the
required scope is in the token's scope set. -/
def tokenHasScope (t : TokenDoc) (scope : String) : Bool :=
  t.scope.contains scope

/-- Modelled from the spec: `Token().createToken(user, days=d, scope=s)` — a
fresh token owned by the user, expiring `d` days from now, carrying the scope.
`newId` is the fresh identifier chosen by the store. -/
def createToken (now : Int) (u : UserDoc) (days : Int) (scope : String)
    (newId : String) : TokenDoc :=
  { tid := newId, userId := some u.oid, expires := now + days * 86400,
    scope := [scope] }

/-! ## OTP lifecycle handlers (`initializeOtp`, `finalizeOtp`, `removeOtp`,
`user.py` lines 597-649).

The model calls `self._model.initializeOtp(user)` and
`self._model.verifyOtp(user, otpToken)` are external; they are passed in as
oracles: `freshOtp` is the configuration `initializeOtp` stores on the user
(girder stores it un-enabled and returns provisioning URIs, abstracted as the
secret), and `verify` decides whether `verifyOtp` succeeds (it raises on
failure, so the user is not saved). -/

/-- `User.initializeOtp` (lines 604-611): result is the saved user paired with
the returned OTP URIs (abstracted as the stored secret). -/
def initializeOtp (freshOtp : String) (user : UserDoc) :
    Except ApiError (UserDoc × String) :=
  if hasOtpEnabled user then
    Except.error (ApiError.rest "The user has already enabled one-time passwords.")
  else
    let user1 : UserDoc := { user with otp := some { enabled := false, secret := freshOtp } }
    Except.ok (user1, freshOtp)

/-- `User.finalizeOtp` (lines 621-635).  `otpHeader` is the `Girder-OTP`
header (absent or its value); `verify u t` models `verifyOtp` succeeding for
user document `u` and presented password `t`.  On success the saved user is
returned. -/
def finalizeOtp (verify : UserDoc → String → Bool) (user : UserDoc)
    (otpHeader : Option String) : Except ApiError UserDoc :=
  match otpHeader with
  | none => Except.error (ApiError.rest "The \"Girder-OTP\" header must be provided.")
  | some otpToken =>
    if otpToken = "" then
      Except.error (ApiError.rest "The \"Girder-OTP\" header must be provided.")
    else if user.otp.isNone then
      Except.error (ApiError.rest "The user has not initialized one-time passwords.")
    else if hasOtpEnabled user then
      Except.error (ApiError.rest "The user has already enabled one-time passwords.")
    else
      let user1 : UserDoc :=
        { user with otp := user.otp.map (fun o => { o with enabled := true }) }
      if ¬ verify user1 otpToken then
        Except.error (ApiError.validation "The OTP is invalid.")
      else
        Except.ok user1

/-- `User.removeOtp` (lines 644-649): on success the saved user is returned. -/
def removeOtp (user : UserDoc) : Except ApiError UserDoc :=
  if ¬ hasOtpEnabled user then
    Except.error (ApiError.rest "The user has not enabled one-time passwords.")
  else
    Except.ok { user with otp := none }

/-! ## Password handlers (`changePassword`, `generateTemporaryPassword`,
`checkTemporaryPassword`, `user.py` lines 490-582). -/

/-- Side effects of `changePassword`: the password set via
`self._model.setPassword` (if any) and the token removed via
`Token().remove` (if any). -/
structure ChangePwEffects where
  passwordSet : Option String
  removedToken : Option String
  deriving DecidableEq, Repr

/-- Whether `old` is the caller's actual current password (lines 506-507:
`self._model.hasPassword(user) and
self._model._cryptContext.verify(old, user['salt'])`; the `verify` call is
only reached when a salt is stored). -/
def oldIsCurrentPassword (verify : String → String → Bool) (user : UserDoc)
    (old : String) : Bool :=
  hasPassword user &&
    (match user.salt with
     | some s => verify old s
     | none => false)

/-- `User.changePassword` (lines 499-521).  `user` is the logged-in caller
(`@access.user` guarantees one); `verify old salt` models
`self._model._cryptContext.verify(old, user['salt'])`; `tokens` is the token
collection backing `Token().load(old, force=True, objectId=False,
exc=False)`. -/
def changePassword (verify : String → String → Bool) (tokens : List TokenDoc)
    (user : UserDoc) (old new : String) :
    Except ApiError (String × ChangePwEffects) :=
  if old = "" then
    Except.error (ApiError.rest "Old password must not be empty.")
  else
    let pwOk : Bool := oldIsCurrentPassword verify user old
    let tokenUsed : Option TokenDoc :=
      if pwOk then none else tokenLoad tokens old
    if ¬ pwOk then
      match tokenUsed with
      | none => Except.error (ApiError.access "Old password is incorrect.")
      | some t =>
        if t.userId.isNone ∨ t.userId ≠ some user.oid ∨
            ¬ tokenHasScope t TEMPORARY_USER_AUTH then
          Except.error (ApiError.access "Old password is incorrect.")
        else
          Except.ok ("Password changed.",
            { passwordSet := some new, removedToken := some t.tid })
    else
      Except.ok ("Password changed.", { passwordSet := some new, removedToken := none })

/-- Side effects of `generateTemporaryPassword`: the token created, the mail
sent (recipient), and the user document written back by the handler (always
`none`: the handler never saves or mutates the user). -/
structure TempPwEffects where
  createdToken : Option TokenDoc
  mailedTo : Option String
  savedUser : Option UserDoc
  deriving DecidableEq, Repr

/-- `User.generateTemporaryPassword` (lines 530-549).  `users` backs
`self._model.findOne({'email': email.lower()})`; `now` and `newId` feed the
modelled `Token().createToken(user, days=1, scope=TEMPORARY_USER_AUTH)`. -/
def generateTemporaryPassword (users : List UserDoc) (now : Int) (newId : String)
    (email : String) : Except ApiError (String × TempPwEffects) :=
  match users.find? (fun u => u.email = lowerString email) with
  | none => Except.error (ApiError.rest "That email is not registered.")
  | some user =>
    let token := createToken now user 1 TEMPORARY_USER_AUTH newId
    Except.ok ("Sent temporary access email.",
      { createdToken := some token, mailedTo := some email, savedUser := none })

/-- The body returned by `checkTemporaryPassword` on success, together with
the tokens the handler removed (always `[]`: the temporary token is kept). -/
structure CheckTempResult where
  authTokenId : String
  authExpires : Int
  temporary : Bool
  removedTokens : List String
  deriving DecidableEq, Repr

/-- `User.checkTemporaryPassword` (lines 560-582).  `tokens` backs
`Token().load(token, user=user, level=AccessType.ADMIN, objectId=False,
exc=True)` (modelled from the spec as lookup by id, raising when absent);
`now` is `datetime.datetime.utcnow()`; `authToken` is the auth token issued by
`self.sendAuthTokenCookie(user)`. -/
def checkTemporaryPassword (tokens : List TokenDoc) (now : Int)
    (authToken : TokenDoc) (user : UserDoc) (tokenId : String) :
    Except ApiError CheckTempResult :=
  match tokenLoad tokens tokenId with
  | none => Except.error (ApiError.validation "Invalid token.")
  | some token =>
    let delta := token.expires - now
    let hasScope := tokenHasScope token TEMPORARY_USER_AUTH
    if token.userId ≠ some user.oid ∨ delta ≤ 0 ∨ ¬ hasScope then
      Except.error
        (ApiError.access "The token does not grant temporary access to this user.")
    else
      Except.ok { authTokenId := authToken.tid, authExpires := authToken.expires,
                  temporary := true, removedTokens := [] }

/-! ## `updateUser` (`user.py` lines 438-475). -/

/-- The status block of `updateUser` (lines 467-473).  Result: the user to be
saved, paired with whether `_sendApprovedEmail` was called.  Note the source
reads `user['status']` directly on line 470, a `KeyError` when the key is
absent (line 467 used `user.get('status', 'enabled')`). -/
def updateUserStatus (currentUser : UserDoc) (user : UserDoc)
    (status : Option String) : Except ApiError (UserDoc × Bool) :=
  match status with
  | none => Except.ok (user, false)
  | some s =>
    if s ≠ user.status.getD "enabled" then
      if ¬ currentUser.admin then
        Except.error (ApiError.access "Only admins may change status.")
      else
        match user.status with
        | none => Except.error ApiError.keyError
        | some st =>
          Except.ok ({ user with status := some s }, st = "pending" && s = "enabled")
    else
      Except.ok (user, false)

/-- `User.updateUser` (lines 454-475).  `currentUser` is the authenticated
caller; `user` the document loaded from the `id` path parameter with WRITE
access; on success the saved user is returned with the approved-mail flag. -/
def updateUser (currentUser : UserDoc) (user : UserDoc)
    (firstName lastName email : String) (admin : Option Bool)
    (status : Option String) : Except ApiError (UserDoc × Bool) :=
  let user1 : UserDoc :=
    { user with firstName := firstName, lastName := lastName, email := email }
  match admin with
  | none => updateUserStatus currentUser user1 status
  | some a =>
    if currentUser.admin then
      updateUserStatus currentUser { user1 with admin := a } status
    else if user1.admin ≠ a then
      Except.error (ApiError.access "Only admins may change admin status.")
    else
      updateUserStatus currentUser user1 status

/-! ## `createUser` (`user.py` lines 356-417). -/

/-- A group document ("named collection of users with access levels" per the
spec); `members` pairs each member's user id with the access level granted. -/
structure GroupDoc where
  gid : ObjId
  name : String
  isPublic : Bool
  creatorId : Option ObjId
  members : List (ObjId × Nat)
  deriving DecidableEq, Repr

/-- Modelled from the spec: the external user model's `createUser` — creates
and persists a new user record with the given fields; `newId` is the fresh
identifier, `now` the creation time. -/
def modelCreateUser (newId : ObjId) (now : Int) (login email firstName lastName : String)
    (password : String) (admin : Bool) : UserDoc :=
  { oid := newId, login := login, email := email, firstName := firstName,
    lastName := lastName, salt := some password, admin := admin, status := none,
    otp := none, groups := [], emailVerified := false, created := now }

/-- Modelled from the spec: `GroupModel().createGroup(name, creator, public)`
— a fresh group with the given name, creator and visibility, initially with
no members. -/
def createGroup (newGid : ObjId) (name : String) (creator : Option UserDoc)
    (pub : Bool) : GroupDoc :=
  { gid := newGid, name := name, isPublic := pub,
    creatorId := creator.map (fun u => u.oid), members := [] }

/-- Modelled from the spec: `GroupModel().addUser(group, user, level)` — adds
the user to the group's member list at the given access level. -/
def groupAddUser (g : GroupDoc) (u : UserDoc) (level : Nat) : GroupDoc :=
  { g with members := g.members ++ [(u.oid, level)] }

/-- `UserModel().findOne(query={'admin': True}, sort=[('created',
SortDir.ASCENDING)])`: the earliest-created admin. -/
def earliestAdmin (users : List UserDoc) : Option UserDoc :=
  (users.filter (fun u => u.admin)).foldl
    (fun acc u =>
      match acc with
      | none => some u
      | some v => if u.created < v.created then some u else some v)
    none

/-- Environment of `createUser`: the registration-policy setting, the user and
group collections, and the model's `canLogin`. -/
structure CreateUserEnv where
  regPolicy : String
  users : List UserDoc
  groups : List GroupDoc
  canLogin : UserDoc → Bool

/-- The outcome of a successful `createUser` call: the new user (the response
body), the "New Users" group as saved after `addUser`, whether that group was
created by this call, and whether an auth cookie was issued. -/
structure CreateUserResult where
  user : UserDoc
  groupSaved : GroupDoc
  groupCreated : Bool
  authTokenSent : Bool
  deriving DecidableEq, Repr

/-- `User.createUser` (lines 371-417).  `newUserId`/`newGroupId` are the fresh
ids the store would assign, `now` the creation time. -/
def createUser (env : CreateUserEnv) (newUserId newGroupId : ObjId) (now : Int)
    (login email : String) (firstName : Option String) (lastName password : String)
    (adminParam : Bool) (currentUser : Option UserDoc) :
    Except ApiError CreateUserResult :=
  let anonOrNonAdmin : Bool :=
    match currentUser with
    | none => true
    | some cu => ¬ cu.admin
  if anonOrNonAdmin ∧ env.regPolicy = "closed" then
    Except.error (ApiError.rest
      ("Registration on this instance is closed. Contact an " ++
       "administrator to create an account for you."))
  else
    let admin := if anonOrNonAdmin then false else adminParam
    let user := modelCreateUser newUserId now login email (firstName.getD "")
      lastName password admin
    let authTokenSent := currentUser.isNone && env.canLogin user
    let found := env.groups.find? (fun g => g.name = "New Users")
    let newUserGroup :=
      match found with
      | some g => g
      | none => createGroup newGroupId "New Users" (earliestAdmin env.users) false
    let group := groupAddUser newUserGroup user AccessTypeREAD
    Except.ok { user := user, groupSaved := group, groupCreated := found.isNone,
                authTokenSent := authTokenSent }

/-! ## `getUserApplets` (`user.py` lines 121-282). -/

/-- An applet document: `roleGroups` holds, per role name, the group ids at
the path `roles.<role>.groups.id`; `deleted` is `meta.applet.deleted` (absent
key modelled as `none`). -/
structure AppletDoc where
  aid : ObjId
  roleGroups : List (String × List ObjId)
  deleted : Option Bool
  deriving DecidableEq, Repr

/-- A collection document (only its name is queried). -/
structure CollectionDoc where
  cid : ObjId
  name : String
  deriving DecidableEq, Repr

/-- An entry of an assignment folder's `meta.members` array. -/
structure MemberEntry where
  roles : Option (List String)
  atId : Option ObjId
  deriving DecidableEq, Repr

/-- The `meta` sub-document of a folder.  `applet` models the `applet` key
(outer `Option`: key present) and its `@id` (inner `Option`); `userAtId`
models `meta.user.@id` of a `userid` child folder. -/
structure FolderMeta where
  members : Option (List MemberEntry)
  applet : Option (Option ObjId)
  userAtId : Option (Option ObjId)
  deriving DecidableEq, Repr

/-- A folder document with the fields `getUserApplets` touches. -/
structure FolderDoc where
  fid : ObjId
  parentId : ObjId
  parentCollection : String
  baseParentType : String
  name : String
  lowerName : Option String
  meta : Option FolderMeta
  deriving DecidableEq, Repr

/-- The store and external collaborators behind `getUserApplets`:
`canReadFolder` is the permission filter `childFolders` applies for the
reviewer (by reviewer id) when not forced, `canReadApplet` the `AccessType.READ`
check of `AppletModel().load`, and `formatLd` the
`jsonld_expander.formatLdObject` oracle (raising is an `Except.error`). -/
structure AppletsDb where
  applets : List AppletDoc
  collections : List CollectionDoc
  folders : List FolderDoc
  canReadFolder : Option ObjId → FolderDoc → Bool
  canReadApplet : Option ObjId → AppletDoc → Bool
  formatLd : AppletDoc → Except String String

/-- `AppletModel().find({'roles.<role>.groups.id': g,
'meta.applet.deleted': {'$ne': True}})` (lines 158-163). -/
def appletFindRoleGroup (db : AppletsDb) (role : String) (g : ObjId) :
    List AppletDoc :=
  db.applets.filter (fun a =>
    (((a.roleGroups.find? (fun p => p.1 = role)).map (fun p => p.2)).getD
      []).contains g ∧ a.deleted ≠ some true)

/-- One iteration of the member loop (lines 198-249) for one `assignedUser`
entry.  `Except.error` models an exception that escapes to the bare `except`
of line 250 (the `AttributeError`/`TypeError` of chained lookups on `None`);
an `AccessException` from `AppletModel().load` is caught by the inner
`except AccessException` (line 248) and yields no applet. -/
def memberStep (db : AppletsDb) (reviewerId : Option ObjId) (u : UserDoc)
    (assignment : FolderDoc) (m : MemberEntry) :
    Except ApiError (List AppletDoc) :=
  let rolesOk : Bool :=
    match m.roles with
    | some rs => ¬ rs.isEmpty
    | none => false
  if ¬ (rolesOk ∧ m.atId.isSome) then
    Except.ok []
  else
    match db.folders.find? (fun f => some f.fid = m.atId) with
    | none => Except.error ApiError.typeError
    | some parent =>
      let children := db.folders.filter
        (fun f => f.parentCollection = "folder" ∧ f.parentId = parent.fid)
      let userIds : List ObjId := children.filterMap (fun c =>
        if c.lowerName = some "userid" then
          match c.meta with
          | some meta =>
            match meta.userAtId with
            | some (some uid) => some uid
            | _ => none
          | none => none
        else none)
      if ¬ userIds.contains u.oid then
        Except.ok []
      else
        match assignment.meta with
        | none => Except.error ApiError.keyError
        | some meta =>
          match meta.applet with
          | some (some appletId) =>
            match db.applets.find? (fun a => a.aid = appletId) with
            | none => Except.error ApiError.attributeError
            | some a =>
              if ¬ db.canReadApplet reviewerId a then
                Except.ok []
              else if ¬ (a.deleted.getD false) then
                Except.ok [a]
              else
                Except.ok []
          | _ => Except.ok []

/-- The member loop of one assignment under the bare `except` of line 250: an
escaping exception is printed and the loop over assignments moves on, keeping
the applets already appended for this assignment. -/
def processMembers (db : AppletsDb) (reviewerId : Option ObjId) (u : UserDoc)
    (assignment : FolderDoc) : List MemberEntry → List AppletDoc → List AppletDoc
  | [], acc => acc
  | m :: rest, acc =>
    match memberStep db reviewerId u assignment m with
    | Except.error _ => acc
    | Except.ok l => processMembers db reviewerId u assignment rest (acc ++ l)

/-- Lines 192-251: the applets contributed by one assignment folder.  The
guard is line 194's `'meta' in assignment and 'members' in
assignment.get('meta', {}) is not None` (a chained comparison equivalent to
both keys being present). -/
def processAssignment (db : AppletsDb) (reviewerId : Option ObjId) (u : UserDoc)
    (assignment : FolderDoc) : List AppletDoc :=
  match assignment.meta with
  | none => []
  | some meta =>
    match meta.members with
    | none => []
    | some ms => processMembers db reviewerId u assignment ms []

/-- Keys of a Python dict built by comprehension: first-occurrence order. -/
def firstKeys : List ObjId → List ObjId → List ObjId
  | [], _ => []
  | k :: rest, seen =>
    if seen.contains k then firstKeys rest seen else k :: firstKeys rest (k :: seen)

/-- Lines 252-259: `{applet['_id']: applet for applet in applets}.values()` —
keys in first-occurrence order, each mapped to the last applet bearing it. -/
def dedupeById (applets : List AppletDoc) : List AppletDoc :=
  (firstKeys (applets.map (fun a => a.aid)) []).filterMap
    (fun k => (applets.filter (fun a => a.aid = k)).getLast?)

/-- Modelled from the spec: `girder.constants.USER_ROLES` (not under `src/`)
— the fixed role vocabulary the `role` parameter is checked against; its
exact membership beyond containing the default role `'user'` is immaterial
here. -/
def USER_ROLES : List String := ["user", "coordinator", "editor", "manager", "reviewer"]

/-- The response of `getUserApplets`: an id list (`ids_only`), the formatted
JSON-LD objects, or — through the `except Exception as e: return(e)` of lines
281-282 — the caught exception value returned as the response body. -/
inductive AppletsResult where
  | ids (l : List ObjId)
  | formatted (l : List String)
  | exnBody (e : String)
  deriving DecidableEq, Repr

/-- `User.getUserApplets` (lines 147-282).  `userParam` is the document the
framework loaded from the `:id` path parameter (`none` models a falsy value,
which a loaded document never is); `currentUser` is the authenticated caller
(`none` when anonymous, the route being public).  Line 148 reads
`user = user if not user else self.getCurrentUser()`, so a (truthy) loaded
path user is replaced by the current user. -/
def getUserApplets (db : AppletsDb) (userParam : Option UserDoc)
    (currentUser : Option UserDoc) (roleParam : String) (ids_only : Bool) :
    Except ApiError AppletsResult :=
  let user : Option UserDoc := if userParam.isNone then userParam else currentUser
  let role := lowerString roleParam
  if ¬ USER_ROLES.contains role then
    Except.error (ApiError.rest "Invalid user role.")
  else
    let reviewerId := currentUser.map (fun r => r.oid)
    match user with
    | none => Except.error ApiError.attributeError
    | some u =>
      let applets0 := (u.groups.map (fun g => appletFindRoleGroup db role g)).flatten
      let assignments : List FolderDoc :=
        ((db.collections.filter (fun c => c.name = "Assignments")).map
          (fun c => db.folders.filter (fun f =>
            f.parentCollection = "collection" ∧ f.parentId = c.cid ∧
            db.canReadFolder reviewerId f))).flatten ++
        db.folders.filter (fun f =>
          some f.parentId = reviewerId ∧ f.baseParentType = "user" ∧
          f.name = "Assignments")
      let applets1 := assignments.foldl
        (fun acc assignment => acc ++ processAssignment db reviewerId u assignment)
        applets0
      let deduped := dedupeById applets1
      if ids_only then
        Except.ok (AppletsResult.ids (deduped.map (fun a => a.aid)))
      else
        let toFormat := deduped.filter (fun a => ¬ (a.deleted.getD false))
        match toFormat.mapM db.formatLd with
        | Except.ok l => Except.ok (AppletsResult.formatted l)
        | Except.error e => Except.ok (AppletsResult.exnBody e)

/-! ## Concrete fixtures used by witnesses and counterexamples. -/

/-- A non-admin user belonging to group 10. -/
def uAlice : UserDoc :=
  { oid := 1, login := "alice", email := "alice@test.org", firstName := "A",
    lastName := "Liddell", salt := some "hashA", admin := false,
    status := some "enabled", otp := none, groups := [10],
    emailVerified := true, created := 100 }

/-- An admin user belonging to group 20. -/
def uBob : UserDoc :=
  { oid := 2, login := "bob", email := "bob@test.org", firstName := "B",
    lastName := "Builder", salt := some "hashB", admin := true,
    status := some "enabled", otp := none, groups := [20],
    emailVerified := true, created := 50 }

/-- An applet assigned (role `user`) to group 10. -/
def appletG10 : AppletDoc :=
  { aid := 100, roleGroups := [("user", [10])], deleted := none }

/-- An applet assigned (role `user`) to group 20. -/
def appletG20 : AppletDoc :=
  { aid := 200, roleGroups := [("user", [20])], deleted := none }

/-- A store containing the two applets and nothing else; formatting succeeds. -/
def dbTwoApplets : AppletsDb :=
  { applets := [appletG10, appletG20], collections := [], folders := [],
    canReadFolder := fun _ _ => true, canReadApplet := fun _ _ => true,
    formatLd := fun _ => Except.ok "ld" }

/-- The same store with a JSON-LD formatter that raises. -/
def dbFormatRaises : AppletsDb :=
  { applets := [appletG10, appletG20], collections := [], folders := [],
    canReadFolder := fun _ _ => true, canReadApplet := fun _ _ => true,
    formatLd := fun _ => Except.error "formatLdObject failed" }

/-- A search environment whose event handlers extend the allow-list with an
`annotation` collection. -/
def envAnnotation : SearchEnv :=
  { trigger := fun l => l ++ [("annotation", ["_id", "name"])],
    parseJson := fun s => some s,
    hasFilter := fun _ => false,
    modelExists := fun _ => true }

/-- A search environment with no event handlers registered. -/
def envPlain : SearchEnv :=
  { trigger := fun l => l,
    parseJson := fun s => some s,
    hasFilter := fun _ => false,
    modelExists := fun _ => true }

/-- A temporary-access token owned by `uAlice`, expiring at time 2000. -/
def tokTempAlice : TokenDoc :=
  { tid := "tmp", userId := some 1, expires := 2000,
    scope := [TEMPORARY_USER_AUTH] }

/-- An auth token as issued by `sendAuthTokenCookie`. -/
def tokAuth : TokenDoc :=
  { tid := "auth", userId := some 1, expires := 5000, scope := [] }

/-- A password verifier for witnesses: the presented secret must equal the
stored material. -/
def verifyEq : String → String → Bool := fun old s => old = s

/-- A user with OTP initialized and enabled. -/
def uCarolOtp : UserDoc :=
  { oid := 3, login := "carol", email := "carol@test.org", firstName := "C",
    lastName := "Curie", salt := some "hashC", admin := false,
    status := some "enabled", otp := some { enabled := true, secret := "sec" },
    groups := [], emailVerified := true, created := 70 }

/-- An OTP verifier that always succeeds. -/
def otpAlways : UserDoc → String → Bool := fun _ _ => true

/-- A `createUser` environment: open registration, two existing users, no
groups yet. -/
def envCreate : CreateUserEnv :=
  { regPolicy := "open", users := [uAlice, uBob], groups := [],
    canLogin := fun _ => true }

/-! ## Claims -/

/-- C3: For every `mongoSearch` request (with `type` and `q` present), if the
`type` parameter is not in the allow-list (after the runtime extension by the
event) the handler raises a `RestException` and queries no model; otherwise
every `find` issued to a model requests exactly the allow-listed fields for
that collection.  (Proved of the evident intent of the handler; the source
literal itself is a `SyntaxError`, recorded as the code bug of this claim.) -/
theorem c3_mongoSearch_allowlist (env : SearchEnv) (p : SearchParams)
    (coll q : String) (ht : p.type = some coll) (hq : p.q = some q) :
    (alookup (env.trigger allowedBase) coll = none →
      mongoSearch env p =
        (Except.error (ApiError.rest ("Invalid resource type: " ++ coll)), [])) ∧
    (∀ call, call ∈ (mongoSearch env p).2 →
      some call.fields = alookup (env.trigger allowedBase) coll) := by
  obtain ⟨ty, qq, lim, off⟩ := p
  simp only at ht hq
  subst ht hq
  constructor
  · intro hnone
    simp [mongoSearch, hnone]
  · intro call hcall
    rcases hopt : alookup (env.trigger allowedBase) coll with _ | fields
    · simp [mongoSearch, hopt] at hcall
    · rcases hp : env.parseJson q with _ | j
      · simp [mongoSearch, hopt, hp] at hcall
      · by_cases hm : env.modelExists coll
        · by_cases hf : env.hasFilter coll
          · simp [mongoSearch, hopt, hp, hm, hf] at hcall
            simp [hcall, hopt]
          · simp [mongoSearch, hopt, hp, hm, hf] at hcall
            simp [hcall, hopt]
        · simp [mongoSearch, hopt, hp, hm] at hcall

/-- Witness for C3: with no event handlers, the non-allow-listed type
`annotation` is rejected with a `RestException` and no model is queried. -/
theorem c3_mongoSearch_allowlist_witness :
    mongoSearch envPlain
        { type := some "annotation", q := some "query", limit := 7, offset := 3 } =
      (Except.error (ApiError.rest ("Invalid resource type: " ++ "annotation")), []) :=
  (c3_mongoSearch_allowlist envPlain
    { type := some "annotation", q := some "query", limit := 7, offset := 3 }
    "annotation" "query" rfl rfl).1 rfl

/-- C4: the `mongo_search.allowed_collections` event is triggered on the
allow-list before the membership test, so a collection added by an event
handler at runtime is accepted as searchable: the request is not rejected and
a model `find` is issued for it (with the handler-supplied field list). -/
theorem c4_event_extends_allowlist (env : SearchEnv) (p : SearchParams)
    (coll q : String) (fields : List String)
    (ht : p.type = some coll) (hq : p.q = some q)
    (hin : alookup (env.trigger allowedBase) coll = some fields)
    (hparse : (env.parseJson q).isSome = true)
    (hmodel : env.modelExists coll = true) :
    (mongoSearch env p).1 = Except.ok () ∧
    ∃ call, (mongoSearch env p).2 = [call] ∧ call.coll = coll ∧
      call.fields = fields := by
  obtain ⟨ty, qq, lim, off⟩ := p
  simp only at ht hq
  subst ht hq
  rcases hp : env.parseJson q with _ | j
  · rw [hp] at hparse; simp at hparse
  · by_cases hf : env.hasFilter coll
    · refine ⟨by simp [mongoSearch, hin, hp, hmodel, hf], ?_⟩
      exact ⟨{ coll := coll, fields := fields, limit := 0, offset := 0 },
        by simp [mongoSearch, hin, hp, hmodel, hf], rfl, rfl⟩
    · refine ⟨by simp [mongoSearch, hin, hp, hmodel, hf], ?_⟩
      exact ⟨{ coll := coll, fields := fields, limit := lim, offset := off },
        by simp [mongoSearch, hin, hp, hmodel, hf], rfl, rfl⟩

/-- Witness for C4: an event handler adds the `annotation` collection, and a
search for it issues exactly one `find` with the handler's field list. -/
theorem c4_event_extends_allowlist_witness :
    (mongoSearch envAnnotation
        { type := some "annotation", q := some "query", limit := 7, offset := 3 }).1 =
      Except.ok () ∧
    ∃ call,
      (mongoSearch envAnnotation
          { type := some "annotation", q := some "query", limit := 7, offset := 3 }).2 =
        [call] ∧ call.coll = "annotation" ∧ call.fields = ["_id", "name"] :=
  c4_event_extends_allowlist envAnnotation
    { type := some "annotation", q := some "query", limit := 7, offset := 3 }
    "annotation" "query" ["_id", "name"] rfl rfl rfl rfl rfl

/-- C5: for every user found by email, `generateTemporaryPassword` creates a
token owned by that user with scope `TEMPORARY_USER_AUTH` and a 1-day expiry
and sends the email, while writing nothing back to the user (its password and
salt fields are unchanged). -/
theorem c5_generateTemporaryPassword (users : List UserDoc) (now : Int)
    (newId email : String) (u : UserDoc)
    (h : users.find? (fun x => x.email = lowerString email) = some u) :
    generateTemporaryPassword users now newId email =
      Except.ok ("Sent temporary access email.",
        { createdToken :=
            some { tid := newId, userId := some u.oid, expires := now + 86400,
                   scope := [TEMPORARY_USER_AUTH] },
          mailedTo := some email, savedUser := none }) := by
  simp [generateTemporaryPassword, h, createToken]

/-- Witness for C5: Alice is found under the lower-cased email; the token is
hers, has the temporary scope and expires one day later; no user write. -/
theorem c5_generateTemporaryPassword_witness :
    generateTemporaryPassword [uAlice] 1000 "tok1" "Alice@test.org" =
      Except.ok ("Sent temporary access email.",
        { createdToken :=
            some { tid := "tok1", userId := some uAlice.oid, expires := 1000 + 86400,
                   scope := [TEMPORARY_USER_AUTH] },
          mailedTo := some "Alice@test.org", savedUser := none }) :=
  c5_generateTemporaryPassword [uAlice] 1000 "tok1" "Alice@test.org" uAlice (by decide)

/-- C6: `checkTemporaryPassword` raises an `AccessException` iff the loaded
token's owning user differs from the specified user, or its expiry is not
strictly in the future, or it lacks the temporary-auth scope; on success the
response carries `temporary = true` and the temporary token is not removed. -/
theorem c6_checkTemporaryPassword (tokens : List TokenDoc) (now : Int)
    (authToken : TokenDoc) (user : UserDoc) (tokenId : String) (t : TokenDoc)
    (hload : tokenLoad tokens tokenId = some t) :
    ((∃ m, checkTemporaryPassword tokens now authToken user tokenId =
        Except.error (ApiError.access m)) ↔
      (t.userId ≠ some user.oid ∨ t.expires ≤ now ∨
        tokenHasScope t TEMPORARY_USER_AUTH = false)) ∧
    (∀ r, checkTemporaryPassword tokens now authToken user tokenId = Except.ok r →
      r.temporary = true ∧ r.removedTokens = []) := by
  refine ⟨⟨?_, ?_⟩, ?_⟩
  · rintro ⟨m, hm⟩
    simp only [checkTemporaryPassword, hload] at hm
    split at hm
    · rename_i hcond
      rcases hcond with h1 | h2 | h3
      · exact Or.inl h1
      · exact Or.inr (Or.inl (by omega))
      · exact Or.inr (Or.inr (by simpa using h3))
    · exact absurd hm (by simp)
  · intro hrhs
    refine ⟨"The token does not grant temporary access to this user.", ?_⟩
    simp only [checkTemporaryPassword, hload]
    split
    · rfl
    · rename_i hcond
      refine absurd ?_ hcond
      rcases hrhs with h1 | h2 | h3
      · exact Or.inl h1
      · exact Or.inr (Or.inl (by omega))
      · exact Or.inr (Or.inr (by simp [h3]))
  · intro r hr
    simp only [checkTemporaryPassword, hload] at hr
    split at hr
    · exact absurd hr (by simp)
    · injection hr with h
      subst h
      exact ⟨rfl, rfl⟩

/-- Witness for C6: Alice's loaded temporary token at time 1000 (expiry 2000)
is accepted: the response is marked temporary and no token is removed. -/
theorem c6_checkTemporaryPassword_witness :
    ((∃ m, checkTemporaryPassword [tokTempAlice] 1000 tokAuth uAlice "tmp" =
        Except.error (ApiError.access m)) ↔
      (tokTempAlice.userId ≠ some uAlice.oid ∨ tokTempAlice.expires ≤ 1000 ∨
        tokenHasScope tokTempAlice TEMPORARY_USER_AUTH = false)) ∧
    (∀ r, checkTemporaryPassword [tokTempAlice] 1000 tokAuth uAlice "tmp" =
        Except.ok r → r.temporary = true ∧ r.removedTokens = []) :=
  c6_checkTemporaryPassword [tokTempAlice] 1000 tokAuth uAlice "tmp" tokTempAlice
    (by decide)

/-- C7: `changePassword` raises (returning no effect, so the password is
unchanged) whenever `old` is empty, or is neither the caller's current
password nor a loadable token that belongs to the caller and carries the
`TEMPORARY_USER_AUTH` scope; and when such a temporary token is used as
`old`, the new password is set and that token is removed. -/
theorem c7_changePassword (verify : String → String → Bool)
    (tokens : List TokenDoc) (user : UserDoc) (old new : String) :
    (old = "" → changePassword verify tokens user old new =
      Except.error (ApiError.rest "Old password must not be empty.")) ∧
    (old ≠ "" → oldIsCurrentPassword verify user old = false →
      (∀ t, tokenLoad tokens old = some t →
        t.userId ≠ some user.oid ∨ tokenHasScope t TEMPORARY_USER_AUTH = false) →
      changePassword verify tokens user old new =
        Except.error (ApiError.access "Old password is incorrect.")) ∧
    (∀ t, old ≠ "" → oldIsCurrentPassword verify user old = false →
      tokenLoad tokens old = some t → t.userId = some user.oid →
      tokenHasScope t TEMPORARY_USER_AUTH = true →
      changePassword verify tokens user old new =
        Except.ok ("Password changed.",
          { passwordSet := some new, removedToken := some t.tid })) := by
  refine ⟨?_, ?_, ?_⟩
  · intro h0
    simp [changePassword, h0]
  · intro h0 hpw htok
    rcases hl : tokenLoad tokens old with _ | t
    · simp [changePassword, h0, hpw, hl]
    · have hbad := htok t hl
      simp only [changePassword, if_neg h0, hpw, hl, Bool.false_eq_true,
        not_false_eq_true, if_true, if_false]
      split
      · rfl
      · rename_i hcond
        refine absurd ?_ hcond
        rcases hbad with h1 | h2
        · exact Or.inr (Or.inl h1)
        · exact Or.inr (Or.inr (by simp [h2]))
  · intro t h0 hpw hl huid hscope
    simp only [changePassword, if_neg h0, hpw, hl, Bool.false_eq_true,
      not_false_eq_true, if_true, if_false]
    split
    · rename_i hcond
      exfalso
      rcases hcond with h1 | h2 | h3
      · rw [huid] at h1; simp at h1
      · exact h2 huid
      · exact h3 (by simp [hscope])
    · rfl

/-- Witness for C7: Alice changes her password presenting her temporary
token; the new password is stored and the token is removed. -/
theorem c7_changePassword_witness :
    changePassword verifyEq [tokTempAlice] uAlice "tmp" "newpw" =
      Except.ok ("Password changed.",
        { passwordSet := some "newpw", removedToken := some tokTempAlice.tid }) :=
  (c7_changePassword verifyEq [tokTempAlice] uAlice "tmp" "newpw").2.2 tokTempAlice
    (by decide) (by decide) (by decide) (by decide) (by decide)

/-- Counterexample to C8: `updateUser` does impose a condition of its own —
called by the non-admin Alice on herself with `admin=true`, the handler
raises an `AccessException` instead of saving, so the claim that no
invariants are enforced beyond declarative parameter checks is false. -/
theorem c8_counterexample_updateUser_guard :
    updateUser uAlice uAlice "A" "Liddell" "alice@test.org" (some true) none =
      Except.error (ApiError.access "Only admins may change admin status.") := by
  decide

/-- C8 (amended): `updateUser` does enforce handler-level invariants before
saving: when the caller is not an admin, a change of the admin flag or of the
status field raises an `AccessException`. -/
theorem c8_amended_updateUser_invariants (currentUser user : UserDoc)
    (fn ln em : String) (a : Bool) (s : String) :
    (currentUser.admin = false → user.admin ≠ a →
      updateUser currentUser user fn ln em (some a) none =
        Except.error (ApiError.access "Only admins may change admin status.")) ∧
    (currentUser.admin = false → s ≠ user.status.getD "enabled" →
      updateUser currentUser user fn ln em none (some s) =
        Except.error (ApiError.access "Only admins may change status.")) := by
  constructor
  · intro hcu hne
    simp [updateUser, hcu, hne]
  · intro hcu hne
    simp [updateUser, updateUserStatus, hcu, hne]

/-- Witness for the amended C8: the non-admin Alice can neither give herself
the admin flag nor change her status. -/
theorem c8_amended_updateUser_invariants_witness :
    updateUser uAlice uAlice "A" "L" "e" (some true) none =
      Except.error (ApiError.access "Only admins may change admin status.") ∧
    updateUser uAlice uAlice "A" "L" "e" none (some "disabled") =
      Except.error (ApiError.access "Only admins may change status.") :=
  ⟨(c8_amended_updateUser_invariants uAlice uAlice "A" "L" "e" true "disabled").1
    (by decide) (by decide),
   (c8_amended_updateUser_invariants uAlice uAlice "A" "L" "e" true "disabled").2
    (by decide) (by decide)⟩

/-- C9: the OTP lifecycle order is enforced: `initializeOtp` raises if OTP is
already enabled; `finalizeOtp` raises if the `Girder-OTP` header is absent,
if OTP was never initialized, or if it is already enabled, and any user it
saves has `otp.enabled = true` with the verification having succeeded;
`removeOtp` raises if OTP is not enabled and otherwise deletes the user's
OTP configuration and saves. -/
theorem c9_otp_lifecycle (verify : UserDoc → String → Bool) (user : UserDoc)
    (secret : String) (hdr : Option String) :
    (hasOtpEnabled user = true →
      initializeOtp secret user =
        Except.error (ApiError.rest "The user has already enabled one-time passwords.")) ∧
    (finalizeOtp verify user none =
      Except.error (ApiError.rest "The \"Girder-OTP\" header must be provided.")) ∧
    (∀ tk, tk ≠ "" → user.otp = none → finalizeOtp verify user (some tk) =
      Except.error (ApiError.rest "The user has not initialized one-time passwords.")) ∧
    (∀ tk, tk ≠ "" → hasOtpEnabled user = true → finalizeOtp verify user (some tk) =
      Except.error (ApiError.rest "The user has already enabled one-time passwords.")) ∧
    (∀ u1, finalizeOtp verify user hdr = Except.ok u1 →
      hasOtpEnabled u1 = true ∧ ∃ tk, hdr = some tk ∧ verify u1 tk = true) ∧
    (hasOtpEnabled user = false →
      removeOtp user =
        Except.error (ApiError.rest "The user has not enabled one-time passwords.")) ∧
    (hasOtpEnabled user = true →
      removeOtp user = Except.ok { user with otp := none }) := by
  refine ⟨?_, ?_, ?_, ?_, ?_, ?_, ?_⟩
  · intro h
    simp [initializeOtp, h]
  · simp [finalizeOtp]
  · intro tk htk hnone
    simp [finalizeOtp, htk, hnone]
  · intro tk htk hen
    have hsome : user.otp.isNone = false := by
      rcases hotp : user.otp with _ | o
      · rw [hasOtpEnabled, hotp] at hen
        exact absurd hen (by simp)
      · simp
    simp [finalizeOtp, htk, hsome, hen]
  · intro u1 h1
    rcases hdr with _ | tk
    · simp [finalizeOtp] at h1
    · by_cases htk : tk = ""
      · simp [finalizeOtp, htk] at h1
      · rcases hotp : user.otp with _ | o
        · simp [finalizeOtp, htk, hotp] at h1
        · by_cases hen : hasOtpEnabled user = true
          · simp [finalizeOtp, htk, hotp, hen] at h1
          · have hrw : finalizeOtp verify user (some tk) =
                (if ¬ verify { user with
                    otp := some { enabled := true, secret := o.secret } } tk = true
                 then Except.error (ApiError.validation "The OTP is invalid.")
                 else Except.ok { user with
                    otp := some { enabled := true, secret := o.secret } }) := by
              simp [finalizeOtp, htk, hotp, hen]
            rw [hrw] at h1
            by_cases hv : verify { user with
                otp := some { enabled := true, secret := o.secret } } tk = true
            · rw [if_neg (by simp [hv])] at h1
              injection h1 with h1
              subst h1
              exact ⟨by simp [hasOtpEnabled], tk, rfl, hv⟩
            · rw [if_pos hv] at h1
              exact absurd h1 (by simp)
  · intro h
    simp [removeOtp, h]
  · intro h
    simp [removeOtp, h]

/-- Witness for C9: initializing is refused for Carol (OTP already on),
finalizing is refused without the header, and removing Carol's OTP deletes
her configuration. -/
theorem c9_otp_lifecycle_witness :
    initializeOtp "sec" uCarolOtp =
      Except.error (ApiError.rest "The user has already enabled one-time passwords.") ∧
    finalizeOtp otpAlways uAlice none =
      Except.error (ApiError.rest "The \"Girder-OTP\" header must be provided.") ∧
    removeOtp uCarolOtp = Except.ok { uCarolOtp with otp := none } :=
  ⟨(c9_otp_lifecycle otpAlways uCarolOtp "sec" none).1 (by decide),
   (c9_otp_lifecycle otpAlways uAlice "sec" none).2.1,
   (c9_otp_lifecycle otpAlways uCarolOtp "sec" none).2.2.2.2.2.2 (by decide)⟩

/-- C10: every successful `createUser` call adds the new user, with READ
access level, to a group named "New Users", creating that group — private,
with the earliest-created admin as creator — when no such group exists. -/
theorem c10_createUser_new_users_group (env : CreateUserEnv)
    (newUserId newGroupId : ObjId) (now : Int) (login email : String)
    (firstName : Option String) (lastName password : String)
    (adminParam : Bool) (currentUser : Option UserDoc) (r : CreateUserResult)
    (h : createUser env newUserId newGroupId now login email firstName
        lastName password adminParam currentUser = Except.ok r) :
    r.groupSaved.name = "New Users" ∧
    (r.user.oid, AccessTypeREAD) ∈ r.groupSaved.members ∧
    (env.groups.find? (fun g => g.name = "New Users") = none →
      r.groupCreated = true ∧ r.groupSaved.isPublic = false ∧
      r.groupSaved.creatorId = (earliestAdmin env.users).map (fun u => u.oid)) := by
  simp only [createUser] at h
  split at h
  · exact absurd h (by simp)
  · rcases hfound : env.groups.find? (fun g => g.name = "New Users") with _ | g
    · rw [hfound] at h
      injection h with h
      subst h
      refine ⟨rfl, ?_, fun _ => ⟨rfl, rfl, rfl⟩⟩
      simp [groupAddUser, createGroup, modelCreateUser]
    · rw [hfound] at h
      injection h with h
      subst h
      refine ⟨?_, ?_, fun hnone => ?_⟩
      · have hg := List.find?_some hfound
        simpa [groupAddUser] using hg
      · simp [groupAddUser, modelCreateUser]
      · rw [hfound] at hnone
        exact absurd hnone (by simp)

/-- Witness for C10: an anonymous registration on an instance with no groups
creates the private "New Users" group with the earliest-created admin (Bob)
as creator and adds the new user at READ level. -/
theorem c10_createUser_new_users_group_witness :
    ({ user := modelCreateUser 7 500 "dora" "dora@test.org" "D" "Doe" "pw" false,
       groupSaved := { gid := 8, name := "New Users", isPublic := false,
                       creatorId := some 2, members := [(7, 1)] },
       groupCreated := true, authTokenSent := true } : CreateUserResult).groupSaved.name =
        "New Users" ∧
    (({ user := modelCreateUser 7 500 "dora" "dora@test.org" "D" "Doe" "pw" false,
        groupSaved := { gid := 8, name := "New Users", isPublic := false,
                        creatorId := some 2, members := [(7, 1)] },
        groupCreated := true, authTokenSent := true } : CreateUserResult).user.oid,
      AccessTypeREAD) ∈
      ({ user := modelCreateUser 7 500 "dora" "dora@test.org" "D" "Doe" "pw" false,
         groupSaved := { gid := 8, name := "New Users", isPublic := false,
                         creatorId := some 2, members := [(7, 1)] },
         groupCreated := true, authTokenSent := true } : CreateUserResult).groupSaved.members ∧
    (envCreate.groups.find? (fun g => g.name = "New Users") = none →
      ({ user := modelCreateUser 7 500 "dora" "dora@test.org" "D" "Doe" "pw" false,
         groupSaved := { gid := 8, name := "New Users", isPublic := false,
                         creatorId := some 2, members := [(7, 1)] },
         groupCreated := true, authTokenSent := true } : CreateUserResult).groupCreated = true ∧
      ({ user := modelCreateUser 7 500 "dora" "dora@test.org" "D" "Doe" "pw" false,
         groupSaved := { gid := 8, name := "New Users", isPublic := false,
                         creatorId := some 2, members := [(7, 1)] },
         groupCreated := true, authTokenSent := true } : CreateUserResult).groupSaved.isPublic = false ∧
      ({ user := modelCreateUser 7 500 "dora" "dora@test.org" "D" "Doe" "pw" false,
         groupSaved := { gid := 8, name := "New Users", isPublic := false,
                         creatorId := some 2, members := [(7, 1)] },
         groupCreated := true, authTokenSent := true } : CreateUserResult).groupSaved.creatorId =
        (earliestAdmin envCreate.users).map (fun u => u.oid)) :=
  c10_createUser_new_users_group envCreate 7 8 500 "dora" "dora@test.org"
    (some "D") "Doe" "pw" false none
    { user := modelCreateUser 7 500 "dora" "dora@test.org" "D" "Doe" "pw" false,
      groupSaved := { gid := 8, name := "New Users", isPublic := false,
                      creatorId := some 2, members := [(7, 1)] },
      groupCreated := true, authTokenSent := true } (by decide)

/-- C1 (evaluation at the failing input): `getUserApplets` aggregates applets
for the *authenticated* user, not for the user named by the `{id}` path
parameter.  With path user Alice (member of group 10 only) the result tracks
whoever is logged in: applet 200 (group 20) when Bob is the caller, applet
100 (group 10) when Alice is — because line 148 replaces every truthy loaded
path user by `self.getCurrentUser()`. -/
theorem c1_getUserApplets_follows_current_user :
    getUserApplets dbTwoApplets (some uAlice) (some uBob) "user" true =
      Except.ok (AppletsResult.ids [200]) ∧
    getUserApplets dbTwoApplets (some uAlice) (some uAlice) "user" true =
      Except.ok (AppletsResult.ids [100]) := by
  exact ⟨by decide, by decide⟩

/-- Counterexample to C2: `getUserApplets` catches the exception raised while
formatting the response (lines 281-282) and returns the exception value as
the (HTTP 200) response body instead of letting a framework error surface. -/
theorem c2_counterexample_exception_as_body :
    getUserApplets dbFormatRaises (some uAlice) (some uAlice) "user" false =
      Except.ok (AppletsResult.exnBody "formatLdObject failed") := by
  decide

/-- C2 (amended): every exception that escapes `getUserApplets` is one of the
two explicit raises (the `RestException` for an invalid role, or the
`AttributeError` of line 157 when the effective user is `None`); exceptions
of the assignment loop are swallowed by the bare `except` and formatting
exceptions are returned as the response body, never raised. -/
theorem c2_amended_error_classification (db : AppletsDb)
    (up cu : Option UserDoc) (role : String) (io : Bool) (e : ApiError)
    (h : getUserApplets db up cu role io = Except.error e) :
    e = ApiError.rest "Invalid user role." ∨ e = ApiError.attributeError := by
  simp only [getUserApplets] at h
  split at h
  · injection h with h
    exact Or.inl h.symm
  · split at h
    · injection h with h
      exact Or.inr h.symm
    · split at h
      · exact absurd h (by simp)
      · split at h
        · exact absurd h (by simp)
        · exact absurd h (by simp)

/-- Witness for the amended C2: an invalid role raises the role
`RestException` only. -/
theorem c2_amended_error_classification_witness :
    ApiError.rest "Invalid user role." = ApiError.rest "Invalid user role." ∨
    ApiError.rest "Invalid user role." = ApiError.attributeError :=
  c2_amended_error_classification dbTwoApplets (some uAlice) none "badrole" true
    (ApiError.rest "Invalid user role.") (by decide)
